import Mathlib

/-!
A shallow embedding of `wb_to_little_r.py`: the fixed-width Fortran-style
field encoder (`format_value`), the little_r report assembler
(`convert_to_little_r`), and the time bucketizer (`output_data`), together
with proofs of the specification claims about them.

Python values that can reach the encoder are modelled by `PyVal`; raised
exceptions are modelled by `Except PyError`.  Python floats are modelled as
exact rationals; the fixed-point rendering `f"{x:.Nf}"` rounds the exact
rational half towards positive infinity (CPython rounds the underlying
binary double half-to-even; no claim below depends on the tie-breaking
rule).  Strings are modelled as `List Char` throughout.
-/

namespace WBLR

/-! ### Definitions: the embedded program -/

deriving instance DecidableEq for Except

/-- Python values that the script passes to `format_value` and friends. -/
inductive PyVal where
  | pynone
  | pystr (s : List Char)
  | pyint (n : ℤ)
  | pyfloat (q : ℚ)
  | pybool (b : Bool)
deriving DecidableEq, Repr

/-- Python exceptions raised by the modelled code paths.  Each constructor
records which raise site fired (CPython attaches a message instead):
`indexError` for `fortran_format[0]` on an empty string,
`typeErrorListIndices` for `point['timestamp']` when `point` is a list,
`valueErrorUnknownFormat` for the explicit `raise ValueError` at the end of
`format_value`, `valueErrorBadIntLiteral` for `int()` on a non-numeric
string, `valueErrorUnpack` for unpacking `split('.')` that did not produce
exactly two parts, and `valueErrorBadFormatCode` for applying format code
`f`/`d` to a value of the wrong type. -/
inductive PyError where
  | indexError
  | typeErrorListIndices
  | valueErrorUnknownFormat (fmt : List Char)
  | valueErrorBadIntLiteral (s : List Char)
  | valueErrorUnpack
  | valueErrorBadFormatCode
deriving DecidableEq, Repr

/-- The decimal digit character for `d` (only ever applied to `d < 10`). -/
def digitChar (d : ℕ) : Char :=
  match d with
  | 0 => '0' | 1 => '1' | 2 => '2' | 3 => '3' | 4 => '4'
  | 5 => '5' | 6 => '6' | 7 => '7' | 8 => '8' | 9 => '9'
  | _ => '0'

/-- Fuelled helper for `natChars`; the fuel only guides structural
recursion and is irrelevant once it exceeds the argument. -/
def natCharsAux (fuel : ℕ) (n : ℕ) : List Char :=
  match fuel with
  | 0 => []
  | fuel' + 1 =>
    if n < 10 then [digitChar n]
    else natCharsAux fuel' (n / 10) ++ [digitChar (n % 10)]

/-- Decimal rendering of a natural number, most significant digit first
(`str(n)` in Python for `n ≥ 0`). -/
def natChars (n : ℕ) : List Char := natCharsAux (n + 1) n

/-- Decimal rendering of an integer (`str(z)` in Python). -/
def intChars (z : ℤ) : List Char :=
  if z < 0 then '-' :: natChars z.natAbs else natChars z.natAbs

/-- A run of `w` space characters. -/
def spaces (w : ℕ) : List Char := List.replicate w ' '

/-- Right-justify `s` in a field of width `w` (Python `rjust` / `>` align):
pad with spaces on the left, never truncate. -/
def padStart (w : ℕ) (s : List Char) : List Char :=
  spaces (w - s.length) ++ s

/-- Left-justify `s` in a field of width `w` (Python `ljust`): pad with
spaces on the right, never truncate. -/
def padEnd (w : ℕ) (s : List Char) : List Char :=
  s ++ spaces (w - s.length)

/-- Pad `s` with zeros on the left to width `w` (Python `zfill` on an
unsigned digit string). -/
def zfill (w : ℕ) (s : List Char) : List Char :=
  List.replicate (w - s.length) '0' ++ s

/-- Round `q * 10 ^ d` to an integer, half towards positive infinity:
`⌊q * 10 ^ d + 1 / 2⌋` computed on the numerator and denominator so that
the kernel can evaluate it. -/
def scaledRound (q : ℚ) (d : ℕ) : ℤ :=
  (2 * q.num * (10 : ℤ) ^ d + (q.den : ℤ)) / (2 * (q.den : ℤ))

/-- Fixed-point rendering of a rational with exactly `d` fractional digits:
the model of Python `f"{q:.df}"` (before any width padding). -/
def renderFixed (q : ℚ) (d : ℕ) : List Char :=
  let a : ℕ := (scaledRound q d).natAbs
  let sgn : List Char := if q.num < 0 then ['-'] else []
  if d = 0 then sgn ++ natChars a
  else sgn ++ natChars (a / 10 ^ d) ++ '.' :: zfill d (natChars (a % 10 ^ d))

/-- The `F<w>.<d>` field body: right-justified fixed-point rendering,
truncated to the first `w` characters (`f"{v:>{w}.{d}f}"[:w]`). -/
def fField (w d : ℕ) (q : ℚ) : List Char :=
  (padStart w (renderFixed q d)).take w

/-- The `I<w>` field body: right-justified integer rendering, truncated to
the first `w` characters (`f"{v:>{w}d}"[:w]`). -/
def iField (w : ℕ) (z : ℤ) : List Char :=
  (padStart w (intChars z)).take w

/-- The `A<w>` field body: `str(value)[:w].ljust(w, ' ')`. -/
def aField (w : ℕ) (s : List Char) : List Char :=
  padEnd w (s.take w)

/-- Python `str.split('.')`. -/
def splitOnDot : List Char → List (List Char)
  | [] => [[]]
  | c :: rest =>
    if c = '.' then [] :: splitOnDot rest
    else
      match splitOnDot rest with
      | [] => [[c]]
      | g :: gs => (c :: g) :: gs

/-- The numeric value of a decimal digit character, if it is one. -/
def charDigit? (c : Char) : Option ℕ :=
  if '0' ≤ c ∧ c ≤ '9' then some (c.toNat - 48) else none

/-- Accumulating digit parser for `parseNat?`. -/
def parseNatAux : List Char → ℕ → Option ℕ
  | [], acc => some acc
  | c :: cs, acc =>
    match charDigit? c with
    | some d => parseNatAux cs (10 * acc + d)
    | none => none

/-- Python `int(s)` on the digit strings that occur in format specs
(CPython additionally accepts signs, surrounding whitespace and
underscores, none of which occur in this program). -/
def parseNat? (s : List Char) : Option ℕ :=
  match s with
  | [] => none
  | _ => parseNatAux s 0

/-- Python `value is None or value == ''`. -/
def isAbsent : PyVal → Bool
  | .pynone => true
  | .pystr [] => true
  | _ => false

/-- The values accepted by Python format code `f`, as exact rationals. -/
def asFloat : PyVal → Option ℚ
  | .pyint n => some (n : ℚ)
  | .pyfloat q => some q
  | .pybool b => some (if b then 1 else 0)
  | _ => none

/-- The values accepted by Python format code `d`. -/
def asInt : PyVal → Option ℤ
  | .pyint n => some n
  | .pybool b => some (if b then 1 else 0)
  | _ => none

/-- Python `str(value)`.  Floats are rendered with one fractional digit;
this only approximates CPython `repr` on non-integral floats, and the
claims proved below use `pyStr` only through its being some string. -/
def pyStr : PyVal → List Char
  | .pynone => ['N', 'o', 'n', 'e']
  | .pystr s => s
  | .pyint n => intChars n
  | .pyfloat q => renderFixed q 1
  | .pybool b => if b then ['T', 'r', 'u', 'e'] else ['F', 'a', 'l', 's', 'e']

/-- Python `value and value in ['T', 't', 'True', 'true', '1', True]`.
Values equal to a member of that list under Python `==` are the five
strings together with `True`, `1` and `1.0`; all of them are truthy, so the
leading `value and` changes nothing. -/
def isTruthyT (v : PyVal) : Bool :=
  decide (v ∈ ([.pystr ['T'], .pystr ['t'],
    .pystr ['T', 'r', 'u', 'e'], .pystr ['t', 'r', 'u', 'e'],
    .pystr ['1'], .pybool true, .pyint 1, .pyfloat 1] : List PyVal))

/-- The `L<w>` field body: the normalized `'T'`/`'F'` character
right-justified to width `w` (`value.rjust(length, ' ')`; note that
`rjust` pads but never truncates). -/
def lField (w : ℕ) (v : PyVal) : List Char :=
  padStart w (if isTruthyT v then ['T'] else ['F'])

/-- The embedding of `format_value` (lines 51-84 of `wb_to_little_r.py`).
Mirrors the Python control flow: dispatch on the first character of
`fortran_format`, with the final `raise ValueError(f"Unknown format: ...")`
as the fall-through. -/
def format_value (value : PyVal) (fortran_format : List Char) :
    Except PyError (List Char) :=
  match fortran_format with
  | [] => .error .indexError
  | c :: rest =>
    if c = 'F' then
      match splitOnDot rest with
      | [lenS, decS] =>
        if isAbsent value then
          match parseNat? lenS with
          | some w => .ok (spaces w)
          | none => .error (.valueErrorBadIntLiteral lenS)
        else
          match parseNat? lenS, parseNat? decS with
          | some w, some d =>
            match asFloat value with
            | some q => .ok (fField w d q)
            | none => .error .valueErrorBadFormatCode
          | _, _ => .error (.valueErrorBadIntLiteral rest)
      | _ => .error .valueErrorUnpack
    else if c = 'I' then
      match parseNat? rest with
      | none => .error (.valueErrorBadIntLiteral rest)
      | some w =>
        if isAbsent value then .ok (spaces w)
        else
          match asInt value with
          | some z => .ok (iField w z)
          | none => .error .valueErrorBadFormatCode
    else if c = 'A' then
      match parseNat? rest with
      | none => .error (.valueErrorBadIntLiteral rest)
      | some w =>
        if value = .pynone then .ok (spaces w)
        else .ok (aField w (pyStr value))
    else if c = 'L' then
      match parseNat? rest with
      | none => .error (.valueErrorBadIntLiteral rest)
      | some w => .ok (lField w value)
    else .error (.valueErrorUnknownFormat (c :: rest))

/-- The canonical `F<width>.<decimals>` format spec string. -/
def fSpec (w d : ℕ) : List Char := 'F' :: (natChars w ++ '.' :: natChars d)

/-- The canonical `I<width>` format spec string. -/
def iSpec (w : ℕ) : List Char := 'I' :: natChars w

/-- The canonical `A<width>` format spec string. -/
def aSpec (w : ℕ) : List Char := 'A' :: natChars w

/-- The canonical `L<width>` format spec string. -/
def lSpec (w : ℕ) : List Char := 'L' :: natChars w

/-- An observation as consumed by `convert_to_little_r`: `timestamp` is
required (`point['timestamp']`), everything else is fetched with
`point.get(...)` and may be absent.  Numeric values are modelled as exact
rationals. -/
structure Point where
  timestamp : ℤ
  latitude : Option ℚ
  longitude : Option ℚ
  id : Option (List Char)
  mission_name : Option (List Char)
  pressure : Option ℚ
  temperature : Option ℚ
  altitude : Option ℚ
  speed_u : Option ℚ
  speed_v : Option ℚ
  humidity : Option ℚ
deriving DecidableEq, Repr

/-- An observation carrying only a timestamp. -/
def mkObs (ts : ℤ) : Point :=
  ⟨ts, none, none, none, none, none, none, none, none, none, none⟩

/-- Days since the Unix epoch to a proleptic-Gregorian `(year, month, day)`
civil date (the standard civil-from-days algorithm; `/` on `ℤ` is floor
division for the positive divisors used here). -/
def civilFromDays (z0 : ℤ) : ℤ × ℤ × ℤ :=
  let z := z0 + 719468
  let era : ℤ := z / 146097
  let doe : ℤ := z - era * 146097
  let yoe : ℤ := (doe - doe / 1460 + doe / 36524 - doe / 146096) / 365
  let y : ℤ := yoe + era * 400
  let doy : ℤ := doe - (365 * yoe + yoe / 4 - yoe / 100)
  let mp : ℤ := (5 * doy + 2) / 153
  let dd : ℤ := doy - (153 * mp + 2) / 5 + 1
  let m : ℤ := if mp < 10 then mp + 3 else mp - 9
  (if m ≤ 2 then y + 1 else y, m, dd)

/-- A broken-down UTC date-time. -/
structure DateTime where
  year : ℤ
  month : ℤ
  day : ℤ
  hour : ℤ
  minute : ℤ
  second : ℤ
deriving DecidableEq, Repr

/-- Model of `datetime.datetime.fromtimestamp(ts, tz=datetime.timezone.utc)`. -/
def fromtimestamp (ts : ℤ) : DateTime :=
  let days := ts / 86400
  let sod := ts % 86400
  let ymd := civilFromDays days
  ⟨ymd.1, ymd.2.1, ymd.2.2, sod / 3600, sod % 3600 / 60, sod % 60⟩

/-- Python `'%0<w>d' % z`: decimal rendering zero-padded to width `w`,
with a sign taking up one of the columns (as in `strftime` fields). -/
def pyPad (w : ℕ) (z : ℤ) : List Char :=
  if z < 0 then '-' :: zfill (w - 1) (natChars z.natAbs)
  else zfill w (natChars z.natAbs)

/-- Model of `observation_time.strftime('%Y%m%d%H%M%S')` (line 142). -/
def dateString (ts : ℤ) : List Char :=
  let t := fromtimestamp ts
  pyPad 4 t.year ++ pyPad 2 t.month ++ pyPad 2 t.day
    ++ pyPad 2 t.hour ++ pyPad 2 t.minute ++ pyPad 2 t.second

/-- `point.get(key)` for an optional numeric field. -/
def pyOptQ : Option ℚ → PyVal
  | some q => .pyfloat q
  | none => .pynone

/-- `point.get(key)` for an optional string field. -/
def pyOptS : Option (List Char) → PyVal
  | some s => .pystr s
  | none => .pynone

/-- Python `''.join` over a list of fallible fields: the leftmost raised
error propagates, otherwise the concatenation of all fields. -/
def exJoin : List (Except PyError (List Char)) → Except PyError (List Char)
  | [] => .ok []
  | x :: xs =>
    match x, exJoin xs with
    | .ok s, .ok rest => .ok (s ++ rest)
    | .error e, _ => .error e
    | .ok _, .error e => .error e

/-- `pressure_pa` (line 188): hectopascals to pascals when present,
`-888888.0` when absent. -/
def pressurePa (point : Point) : ℚ :=
  match point.pressure with
  | some hpa => hpa * 100
  | none => -888888

/-- `temperature_k` (line 191): Celsius to Kelvin when present,
`-888888.0` when absent. -/
def temperatureK (point : Point) : ℚ :=
  match point.temperature with
  | some c => c + 273.15
  | none => -888888

/-- The concrete format spec strings used by `convert_to_little_r`. -/
def fmtF20_5 : List Char := ['F', '2', '0', '.', '5']

/-- Format spec `F13.5`. -/
def fmtF13_5 : List Char := ['F', '1', '3', '.', '5']

/-- Format spec `I10`. -/
def fmtI10 : List Char := ['I', '1', '0']

/-- Format spec `I7`. -/
def fmtI7 : List Char := ['I', '7']

/-- Format spec `A40`. -/
def fmtA40 : List Char := ['A', '4', '0']

/-- Format spec `A20`. -/
def fmtA20 : List Char := ['A', '2', '0']

/-- Format spec `L10`. -/
def fmtL10 : List Char := ['L', '1', '0']

/-- The constant platform string `'FM-35 TEMP'`. -/
def platformStr : List Char := ['F', 'M', '-', '3', '5', ' ', 'T', 'E', 'M', 'P']

/-- The constant source string `'WindBorne'`. -/
def sourceStr : List Char := ['W', 'i', 'n', 'd', 'B', 'o', 'r', 'n', 'e']

/-- The header line of `convert_to_little_r` (lines 88-185): 18 metadata
fields followed by fourteen constant `(F13.5, I7)` sentinel pairs. -/
def header (point : Point) : Except PyError (List Char) :=
  exJoin [
    format_value (pyOptQ point.latitude) fmtF20_5,
    format_value (pyOptQ point.longitude) fmtF20_5,
    format_value (pyOptS point.id) fmtA40,
    format_value (pyOptS point.mission_name) fmtA40,
    format_value (.pystr platformStr) fmtA40,
    format_value (.pystr sourceStr) fmtA40,
    format_value (.pystr []) fmtF20_5,
    format_value (.pyint (-888888)) fmtI10,
    format_value (.pyint 0) fmtI10,
    format_value (.pyint 0) fmtI10,
    format_value (.pyint 0) fmtI10,
    format_value (.pyint 0) fmtI10,
    format_value (.pystr ['T']) fmtL10,
    format_value (.pystr ['F']) fmtL10,
    format_value (.pystr ['F']) fmtL10,
    format_value (.pyint (-888888)) fmtI10,
    format_value (.pyint (-888888)) fmtI10,
    format_value (.pystr (dateString point.timestamp)) fmtA20,
    format_value (.pyfloat (-888888)) fmtF13_5,
    format_value (.pyint 0) fmtI7,
    format_value (.pyfloat (-888888)) fmtF13_5,
    format_value (.pyint 0) fmtI7,
    format_value (.pyfloat (-888888)) fmtF13_5,
    format_value (.pyint 0) fmtI7,
    format_value (.pyfloat (-888888)) fmtF13_5,
    format_value (.pyint 0) fmtI7,
    format_value (.pyfloat (-888888)) fmtF13_5,
    format_value (.pyint 0) fmtI7,
    format_value (.pyfloat (-888888)) fmtF13_5,
    format_value (.pyint 0) fmtI7,
    format_value (.pyfloat (-888888)) fmtF13_5,
    format_value (.pyint 0) fmtI7,
    format_value (.pyfloat (-888888)) fmtF13_5,
    format_value (.pyint 0) fmtI7,
    format_value (.pyfloat (-888888)) fmtF13_5,
    format_value (.pyint 0) fmtI7,
    format_value (.pyfloat (-888888)) fmtF13_5,
    format_value (.pyint 0) fmtI7,
    format_value (.pyfloat (-888888)) fmtF13_5,
    format_value (.pyint 0) fmtI7,
    format_value (.pyfloat (-888888)) fmtF13_5,
    format_value (.pyint 0) fmtI7,
    format_value (.pyfloat (-888888)) fmtF13_5,
    format_value (.pyint 0) fmtI7,
    format_value (.pyfloat (-888888)) fmtF13_5,
    format_value (.pyint 0) fmtI7
  ]

/-- The data line of `convert_to_little_r` (lines 193-253): ten
`(F13.5, I7)` pairs — pressure, height, temperature, dew point, wind
speed, wind direction, wind U, wind V, relative humidity, thickness. -/
def data_record (point : Point) : Except PyError (List Char) :=
  exJoin [
    format_value (.pyfloat (pressurePa point)) fmtF13_5,
    format_value (.pyint 0) fmtI7,
    format_value (pyOptQ point.altitude) fmtF13_5,
    format_value (.pyint 0) fmtI7,
    format_value (.pyfloat (temperatureK point)) fmtF13_5,
    format_value (.pyint 0) fmtI7,
    format_value (.pyfloat (-888888)) fmtF13_5,
    format_value (.pyint 0) fmtI7,
    format_value (.pyfloat (-888888)) fmtF13_5,
    format_value (.pyint 0) fmtI7,
    format_value (.pyfloat (-888888)) fmtF13_5,
    format_value (.pyint 0) fmtI7,
    format_value (pyOptQ point.speed_u) fmtF13_5,
    format_value (.pyint 0) fmtI7,
    format_value (pyOptQ point.speed_v) fmtF13_5,
    format_value (.pyint 0) fmtI7,
    format_value (pyOptQ point.humidity) fmtF13_5,
    format_value (.pyint 0) fmtI7,
    format_value (.pyfloat (-888888)) fmtF13_5,
    format_value (.pyint 0) fmtI7
  ]

/-- The fixed end-of-data sentinel line (line 255). -/
def end_record : List Char :=
  ("-777777.00000      0-777777.00000      0-888888.00000      0-888888.00000      0-888888.00000      0-888888.00000      0-888888.00000      0-888888.00000      0-888888.00000      0-888888.00000      0").data

/-- The fixed tail record line (line 257). -/
def tail_record : List Char := "     39      0      0".data

/-- Argument passed to `convert_to_little_r`: the per-observation path
passes a dict-like observation, the bucketed path of `output_data` passes
a Python list of observations. -/
inductive ConvArg where
  | point (p : Point)
  | obsList (l : List Point)
deriving DecidableEq

/-- The embedding of `convert_to_little_r` (lines 50-271).  The first use
of the argument is `point['timestamp']` (line 86), which raises
`TypeError: list indices must be integers or slices, not str` when the
argument is a Python list.  Writing the file is external (the Sink) and
not modelled; the returned text is. -/
def convert_to_little_r : ConvArg → Except PyError (List Char)
  | .obsList _ => .error .typeErrorListIndices
  | .point p => do
    let h ← header p
    let d ← data_record p
    .ok (h ++ '\n' :: (d ++ '\n' :: (end_record ++ '\n' :: tail_record)))

/-- An optional numeric field rendered through `F<w>.<d>`: blank when
absent. -/
def fvOptF (w d : ℕ) (x : Option ℚ) : List Char :=
  match x with
  | some q => fField w d q
  | none => spaces w

/-- An optional string field rendered through `A<w>`: blank when absent. -/
def fvOptA (w : ℕ) (x : Option (List Char)) : List Char :=
  match x with
  | some s => aField w s
  | none => spaces w

/-- The header line as a pure concatenation of rendered fields
(right-nested, in the order of the `header` list). -/
def headerChars (p : Point) : List Char :=
  fvOptF 20 5 p.latitude ++ (
    fvOptF 20 5 p.longitude ++ (
    fvOptA 40 p.id ++ (
    fvOptA 40 p.mission_name ++ (
    aField 40 platformStr ++ (
    aField 40 sourceStr ++ (
    spaces 20 ++ (
    iField 10 (-888888) ++ (
    iField 10 0 ++ (
    iField 10 0 ++ (
    iField 10 0 ++ (
    iField 10 0 ++ (
    lField 10 (.pystr ['T']) ++ (
    lField 10 (.pystr ['F']) ++ (
    lField 10 (.pystr ['F']) ++ (
    iField 10 (-888888) ++ (
    iField 10 (-888888) ++ (
    aField 20 (dateString p.timestamp) ++ (
    fField 13 5 (-888888) ++ (
    iField 7 0 ++ (
    fField 13 5 (-888888) ++ (
    iField 7 0 ++ (
    fField 13 5 (-888888) ++ (
    iField 7 0 ++ (
    fField 13 5 (-888888) ++ (
    iField 7 0 ++ (
    fField 13 5 (-888888) ++ (
    iField 7 0 ++ (
    fField 13 5 (-888888) ++ (
    iField 7 0 ++ (
    fField 13 5 (-888888) ++ (
    iField 7 0 ++ (
    fField 13 5 (-888888) ++ (
    iField 7 0 ++ (
    fField 13 5 (-888888) ++ (
    iField 7 0 ++ (
    fField 13 5 (-888888) ++ (
    iField 7 0 ++ (
    fField 13 5 (-888888) ++ (
    iField 7 0 ++ (
    fField 13 5 (-888888) ++ (
    iField 7 0 ++ (
    fField 13 5 (-888888) ++ (
    iField 7 0 ++ (
    fField 13 5 (-888888) ++
    iField 7 0))))))))))))))))))))))))))))))))))))))))))))

/-- The data line as a pure concatenation of rendered fields
(right-nested, in the order of the `data_record` list). -/
def dataChars (p : Point) : List Char :=
  fField 13 5 (pressurePa p) ++ (
    iField 7 0 ++ (
    fvOptF 13 5 p.altitude ++ (
    iField 7 0 ++ (
    fField 13 5 (temperatureK p) ++ (
    iField 7 0 ++ (
    fField 13 5 (-888888) ++ (
    iField 7 0 ++ (
    fField 13 5 (-888888) ++ (
    iField 7 0 ++ (
    fField 13 5 (-888888) ++ (
    iField 7 0 ++ (
    fvOptF 13 5 p.speed_u ++ (
    iField 7 0 ++ (
    fvOptF 13 5 p.speed_v ++ (
    iField 7 0 ++ (
    fvOptF 13 5 p.humidity ++ (
    iField 7 0 ++ (
    fField 13 5 (-888888) ++
    iField 7 0))))))))))))))))))

/-- Ordering of observations by timestamp (the sort key of
`accumulated_observations.sort(key=lambda x: x['timestamp'])`). -/
def tsLE (a b : Point) : Prop := a.timestamp ≤ b.timestamp

instance : DecidableRel tsLE := fun a b => Int.decLe a.timestamp b.timestamp

instance : IsTotal Point tsLE := ⟨fun a b => le_total a.timestamp b.timestamp⟩

instance : IsTrans Point tsLE := ⟨fun _ _ _ hab hbc => le_trans hab hbc⟩

/-- The stable sort of the observation collection by timestamp. -/
def sortObs (obs : List Point) : List Point := List.insertionSort tsLE obs

/-- The walk of `output_data`'s for-loop (lines 292-303): `cur` is the
current slice `accumulated_observations[start_index:i]`, `curtime` the
current bucket start.  When an observation lies strictly more than
`bs = bucket_hours * 60 * 60` past `curtime`, the current segment is
emitted (paired with the `curtime` at emission), `curtime` advances by
`adv = datetime.timedelta(hours=bucket_hours).seconds`, and the triggering
observation starts the next segment; the trailing segment is emitted
unconditionally (lines 305-310). -/
def bucket_walk (bs adv : ℤ) :
    List Point → ℤ → List Point → List (ℤ × List Point)
  | [], curtime, cur => [(curtime, cur)]
  | p :: rest, curtime, cur =>
    if p.timestamp - curtime > bs then
      (curtime, cur) :: bucket_walk bs adv rest (curtime + adv) [p]
    else
      bucket_walk bs adv rest curtime (cur ++ [p])

/-- The segments produced by `output_data` (lines 278-310), each paired
with the value of `curtime` (the bucket start) at its emission.  The
initial `curtime` floors the earliest timestamp to a bucket boundary
(line 290; Python `%` on a positive modulus agrees with `Int.emod`).  The
advance is `datetime.timedelta(hours=bucket_hours).seconds` (line 303),
which for a nonnegative whole number of hours is
`bucket_hours * 3600 mod 86400` — the `.seconds` attribute only counts the
part of the duration below one day.  On an empty collection the Python
code raises `IndexError` at line 287; the model returns `[]` there and the
claims quantify over non-empty collections. -/
def output_segments (obs : List Point) (bucket_hours : ℤ) :
    List (ℤ × List Point) :=
  match sortObs obs with
  | [] => []
  | p :: rest =>
    bucket_walk (bucket_hours * 60 * 60) (bucket_hours * 60 * 60 % 86400)
      (p :: rest) (p.timestamp - p.timestamp % (bucket_hours * 60 * 60)) []

/-- The bucketed-path output filename (lines 296-298 and 307-309):
`mt = fromtimestamp(curtime, utc) + timedelta(hours=bucket_hours / 2)`,
i.e. the UTC date-time of `curtime + bucket_hours * 1800` seconds, rendered
as `"WindBorne_%s_%04d-%02d-%02d_%02d:00_%dh.little_r"`. -/
def bucket_filename (mission : List Char) (curtime bucket_hours : ℤ) :
    List Char :=
  let mt := fromtimestamp (curtime + bucket_hours * 1800)
  "WindBorne_".data ++ mission ++ ('_' :: pyPad 4 mt.year)
    ++ ('-' :: pyPad 2 mt.month) ++ ('-' :: pyPad 2 mt.day)
    ++ ('_' :: pyPad 2 mt.hour) ++ ":00_".data
    ++ intChars bucket_hours ++ "h.little_r".data

/-- The per-observation output filename of `main` (lines 393-397):
`os.path.join('data', mission_name)` followed by `f"{point['id']}.little_r"`. -/
def per_obs_filename (mission pid : List Char) : List Char :=
  "data/".data ++ mission ++ ('/' :: pid) ++ ".little_r".data

/-- The bucketed filename as claim C9 words it:
`<mission>_<YYYY>-<MM>-<DD>_<HH>:00_<bucket_hours>h.little_r` with the date
and hour components the UTC rendering of the bucket midpoint
`curtime + bucket_seconds / 2`. -/
def claimed_bucket_filename (mission : List Char) (curtime bucket_hours : ℤ) :
    List Char :=
  let mt := fromtimestamp (curtime + bucket_hours * 3600 / 2)
  mission ++ ('_' :: pyPad 4 mt.year)
    ++ ('-' :: pyPad 2 mt.month) ++ ('-' :: pyPad 2 mt.day)
    ++ ('_' :: pyPad 2 mt.hour) ++ ":00_".data
    ++ intChars bucket_hours ++ "h.little_r".data

/-- The per-observation filename as claim C9 words it:
`<mission>/<id>.little_r`. -/
def claimed_obs_filename (mission pid : List Char) : List Char :=
  mission ++ ('/' :: pid) ++ ".little_r".data

/-- The embedding of `output_data` (lines 278-310): for every emitted
segment, the output filename and the result of the
`convert_to_little_r(segment, output_file)` call made for it — the segment
handed over is the Python list itself. -/
def output_data (obs : List Point) (mission : List Char) (bucket_hours : ℤ) :
    List (List Char × Except PyError (List Char)) :=
  (output_segments obs bucket_hours).map
    (fun s => (bucket_filename mission s.1 bucket_hours,
      convert_to_little_r (.obsList s.2)))

/-- The walk as claim C2 words it: a segment is closed at the first
observation with timestamp at or beyond `bucket_start + bucket_seconds`,
labelled by the midpoint `bucket_start + bucket_seconds / 2`, and
`bucket_start` advances by exactly `bucket_seconds`. -/
def walk_claim (bs : ℤ) : List Point → ℤ → List Point → List (ℤ × List Point)
  | [], curtime, cur => [(curtime + bs / 2, cur)]
  | p :: rest, curtime, cur =>
    if curtime + bs ≤ p.timestamp then
      (curtime + bs / 2, cur) :: walk_claim bs rest (curtime + bs) [p]
    else
      walk_claim bs rest curtime (cur ++ [p])

/-- The segmentation claim C2 describes. -/
def claim_segments (obs : List Point) (bucket_hours : ℤ) :
    List (ℤ × List Point) :=
  match sortObs obs with
  | [] => []
  | p :: rest =>
    walk_claim (bucket_hours * 3600) (p :: rest)
      (p.timestamp - p.timestamp % (bucket_hours * 3600)) []

/-- The code's segments relabelled by their bucket midpoints (the label
from which the output filename's date and hour are derived). -/
def output_segments_mid (obs : List Point) (bucket_hours : ℤ) :
    List (ℤ × List Point) :=
  (output_segments obs bucket_hours).map
    (fun s => (s.1 + bucket_hours * 3600 / 2, s.2))

/-- The amended walk: a segment is closed at the first observation
strictly beyond `bucket_start + bucket_seconds`, labelled by the midpoint,
and `bucket_start` advances once by
`timedelta(hours=bucket_hours).seconds`, i.e. `bucket_seconds mod 86400`. -/
def walk_amended (bs adv : ℤ) :
    List Point → ℤ → List Point → List (ℤ × List Point)
  | [], curtime, cur => [(curtime + bs / 2, cur)]
  | p :: rest, curtime, cur =>
    if p.timestamp - curtime > bs then
      (curtime + bs / 2, cur) :: walk_amended bs adv rest (curtime + adv) [p]
    else
      walk_amended bs adv rest curtime (cur ++ [p])

/-- The segmentation of the amended claim C2. -/
def amended_segments (obs : List Point) (bucket_hours : ℤ) :
    List (ℤ × List Point) :=
  match sortObs obs with
  | [] => []
  | p :: rest =>
    walk_amended (bucket_hours * 3600) (bucket_hours * 3600 % 86400)
      (p :: rest) (p.timestamp - p.timestamp % (bucket_hours * 3600)) []

/-- Observations of one segment all at or before those of another. -/
def segLE (s t : List Point) : Prop :=
  ∀ a ∈ s, ∀ b ∈ t, a.timestamp ≤ b.timestamp

/-! ### Lemmas, claim theorems, witnesses and counterexamples -/

lemma natCharsAux_congr : ∀ f₁ f₂ n : ℕ, n < f₁ → n < f₂ →
    natCharsAux f₁ n = natCharsAux f₂ n := by
  intro f₁
  induction f₁ with
  | zero => omega
  | succ f ih =>
    intro f₂ n h1 h2
    cases f₂ with
    | zero => omega
    | succ f' =>
      simp only [natCharsAux]
      split
      · rfl
      · rename_i hn
        have hd : n / 10 < n := Nat.div_lt_self (by omega) (by omega)
        rw [ih f' (n / 10) (by omega) (by omega)]

lemma natChars_eq (n : ℕ) :
    natChars n = if n < 10 then [digitChar n]
      else natChars (n / 10) ++ [digitChar (n % 10)] := by
  have h0 : natChars n = if n < 10 then [digitChar n]
      else natCharsAux n (n / 10) ++ [digitChar (n % 10)] := rfl
  rw [h0]
  split
  · rfl
  · rename_i h
    have hd : n / 10 < n := Nat.div_lt_self (by omega) (by omega)
    rw [natCharsAux_congr n (n / 10 + 1) (n / 10) (by omega) (by omega)]
    rfl

lemma natChars_ne_nil (n : ℕ) : natChars n ≠ [] := by
  rw [natChars_eq]
  split <;> simp

lemma digitChar_ne_dot (d : ℕ) (h : d < 10) : digitChar d ≠ '.' := by
  interval_cases d <;> decide

lemma charDigit_digitChar (d : ℕ) (h : d < 10) : charDigit? (digitChar d) = some d := by
  interval_cases d <;> rfl

lemma natChars_no_dot (n : ℕ) : '.' ∉ natChars n := by
  induction n using Nat.strong_induction_on with
  | _ n ih =>
    rw [natChars_eq]
    split
    · rename_i h
      simp only [List.mem_singleton]
      exact fun hc => digitChar_ne_dot n h hc.symm
    · rename_i h
      intro hmem
      rcases List.mem_append.1 hmem with h1 | h1
      · exact ih (n / 10) (Nat.div_lt_self (by omega) (by omega)) h1
      · have hlt : n % 10 < 10 := Nat.mod_lt _ (by omega)
        exact digitChar_ne_dot (n % 10) hlt (List.mem_singleton.1 h1).symm

lemma parseNatAux_append (xs ys : List Char) (acc : ℕ) :
    parseNatAux (xs ++ ys) acc =
      match parseNatAux xs acc with
      | some a => parseNatAux ys a
      | none => none := by
  induction xs generalizing acc with
  | nil => rfl
  | cons c cs ih =>
    simp only [List.cons_append, parseNatAux]
    cases charDigit? c with
    | none => rfl
    | some d => exact ih _

lemma parseNatAux_natChars (n : ℕ) : parseNatAux (natChars n) 0 = some n := by
  induction n using Nat.strong_induction_on with
  | _ n ih =>
    rw [natChars_eq]
    split
    · rename_i h
      simp [parseNatAux, charDigit_digitChar n h]
    · rename_i h
      rw [parseNatAux_append, ih (n / 10) (Nat.div_lt_self (by omega) (by omega))]
      have hlt : n % 10 < 10 := Nat.mod_lt _ (by omega)
      simp only [parseNatAux, charDigit_digitChar (n % 10) hlt]
      congr 1
      omega

lemma parseNat?_natChars (n : ℕ) : parseNat? (natChars n) = some n := by
  rcases h : natChars n with _ | ⟨a, l⟩
  · exact absurd h (natChars_ne_nil n)
  · have : parseNat? (a :: l) = parseNatAux (a :: l) 0 := rfl
    rw [this, ← h, parseNatAux_natChars]

lemma splitOnDot_no_dot (xs : List Char) (h : '.' ∉ xs) : splitOnDot xs = [xs] := by
  induction xs with
  | nil => rfl
  | cons c rest ih =>
    simp only [List.mem_cons, not_or] at h
    simp only [splitOnDot]
    rw [if_neg (fun hc => h.1 hc.symm), ih h.2]

lemma splitOnDot_append (xs ys : List Char) (h : '.' ∉ xs) :
    splitOnDot (xs ++ '.' :: ys) = xs :: splitOnDot ys := by
  induction xs with
  | nil => simp [splitOnDot]
  | cons c rest ih =>
    simp only [List.mem_cons, not_or] at h
    simp only [List.cons_append, splitOnDot, List.append_eq]
    rw [if_neg (fun hc => h.1 hc.symm), ih h.2]

lemma length_spaces (w : ℕ) : (spaces w).length = w := List.length_replicate w ' '

lemma length_padStart_take (w : ℕ) (s : List Char) :
    ((padStart w s).take w).length = w := by
  simp only [padStart, spaces, List.length_take, List.length_append,
    List.length_replicate]
  omega

lemma fField_length (w d : ℕ) (q : ℚ) : (fField w d q).length = w :=
  length_padStart_take w _

lemma iField_length (w : ℕ) (z : ℤ) : (iField w z).length = w :=
  length_padStart_take w _

lemma aField_length (w : ℕ) (s : List Char) : (aField w s).length = w := by
  simp only [aField, padEnd, spaces, List.length_append, List.length_take,
    List.length_replicate]
  omega

lemma lField_length (w : ℕ) (v : PyVal) : (lField w v).length = max w 1 := by
  unfold lField padStart spaces
  split <;> simp <;> omega

lemma aField_nil (w : ℕ) : aField w [] = spaces w := by
  simp [aField, padEnd, spaces]

lemma format_value_fSpec (v : PyVal) (w d : ℕ) :
    format_value v (fSpec w d) =
      if isAbsent v then .ok (spaces w)
      else
        match asFloat v with
        | some q => .ok (fField w d q)
        | none => .error .valueErrorBadFormatCode := by
  simp only [format_value, fSpec, if_true]
  rw [splitOnDot_append _ _ (natChars_no_dot w),
    splitOnDot_no_dot _ (natChars_no_dot d)]
  simp only [parseNat?_natChars]

lemma format_value_iSpec (v : PyVal) (w : ℕ) :
    format_value v (iSpec w) =
      if isAbsent v then .ok (spaces w)
      else
        match asInt v with
        | some z => .ok (iField w z)
        | none => .error .valueErrorBadFormatCode := by
  simp only [format_value, iSpec, if_true]
  simp only [parseNat?_natChars]
  rw [if_neg (show ¬('I' : Char) = 'F' by decide)]

lemma format_value_aSpec (v : PyVal) (w : ℕ) :
    format_value v (aSpec w) =
      if v = .pynone then .ok (spaces w)
      else .ok (aField w (pyStr v)) := by
  simp only [format_value, aSpec, if_true]
  simp only [parseNat?_natChars]
  rw [if_neg (show ¬('A' : Char) = 'F' by decide),
    if_neg (show ¬('A' : Char) = 'I' by decide)]

lemma format_value_lSpec (v : PyVal) (w : ℕ) :
    format_value v (lSpec w) = .ok (lField w v) := by
  simp only [format_value, lSpec, if_true]
  simp only [parseNat?_natChars]
  rw [if_neg (show ¬('L' : Char) = 'F' by decide),
    if_neg (show ¬('L' : Char) = 'I' by decide),
    if_neg (show ¬('L' : Char) = 'A' by decide)]

/-- C1: for every value and every format spec of one of the four kinds
`F<width>.<decimals>`, `I<width>`, `A<width>`, `L<width>` with width ≥ 1,
whenever `format_value` returns a string (absent-value and overflow cases
included), that string has length exactly the spec's width. -/
theorem format_value_width_exact (v : PyVal) (w d : ℕ)
    (s1 s2 s3 s4 : List Char) (hw : 1 ≤ w) :
    (format_value v (fSpec w d) = .ok s1 → s1.length = w)
  ∧ (format_value v (iSpec w) = .ok s2 → s2.length = w)
  ∧ (format_value v (aSpec w) = .ok s3 → s3.length = w)
  ∧ (format_value v (lSpec w) = .ok s4 → s4.length = w) := by
  refine ⟨?_, ?_, ?_, ?_⟩ <;> intro h
  · rw [format_value_fSpec] at h
    split at h
    · cases h
      exact length_spaces w
    · split at h
      · cases h
        exact fField_length w d _
      · cases h
  · rw [format_value_iSpec] at h
    split at h
    · cases h
      exact length_spaces w
    · split at h
      · cases h
        exact iField_length w _
      · cases h
  · rw [format_value_aSpec] at h
    split at h
    · cases h
      exact length_spaces w
    · cases h
      exact aField_length w _
  · rw [format_value_lSpec] at h
    cases h
    have := lField_length w v
    omega

theorem format_value_width_exact_witness :
    (format_value .pynone (fSpec 13 5) = .ok (spaces 13) → (spaces 13).length = 13)
  ∧ (format_value .pynone (iSpec 13) = .ok (spaces 13) → (spaces 13).length = 13)
  ∧ (format_value .pynone (aSpec 13) = .ok (spaces 13) → (spaces 13).length = 13)
  ∧ (format_value .pynone (lSpec 13) = .ok (padStart 13 ['F']) →
      (padStart 13 ['F']).length = 13) :=
  format_value_width_exact .pynone 13 5 (spaces 13) (spaces 13) (spaces 13)
    (padStart 13 ['F']) (by decide)

/-- C6: for every numeric or string format spec (kinds `F`, `I`, `A`) of
width `w`, formatting `None` and formatting the empty string both return
exactly `w` space characters. -/
theorem absent_value_blank (w d : ℕ) :
    format_value .pynone (fSpec w d) = .ok (spaces w)
  ∧ format_value (.pystr []) (fSpec w d) = .ok (spaces w)
  ∧ format_value .pynone (iSpec w) = .ok (spaces w)
  ∧ format_value (.pystr []) (iSpec w) = .ok (spaces w)
  ∧ format_value .pynone (aSpec w) = .ok (spaces w)
  ∧ format_value (.pystr []) (aSpec w) = .ok (spaces w) := by
  refine ⟨?_, ?_, ?_, ?_, ?_, ?_⟩
  · rw [format_value_fSpec]
    rfl
  · rw [format_value_fSpec]
    rfl
  · rw [format_value_iSpec]
    rfl
  · rw [format_value_iSpec]
    rfl
  · rw [format_value_aSpec]
    rfl
  · rw [format_value_aSpec, if_neg (by decide)]
    simp only [pyStr]
    rw [aField_nil]

/-- C7: a value whose rendering exceeds the width is truncated to the
first `width` characters of that rendering — the fixed-point rendering for
`F`, the decimal integer rendering for `I`, `str(value)` for `A` — and no
exception is raised for such overflowing values.  For `L` the normalized
rendering (`'T'`/`'F'`, one character) can never exceed a width ≥ 1, so
the logical case of the claim holds vacuously; the last conjunct records
that the rendering fits. -/
theorem overflow_truncation (w d : ℕ) (q : ℚ) (z : ℤ) (v : PyVal)
    (hw : 1 ≤ w) (hF : w < (renderFixed q d).length)
    (hI : w < (intChars z).length) (hA : w < (pyStr v).length)
    (hv : v ≠ .pynone) :
    format_value (.pyfloat q) (fSpec w d) = .ok ((renderFixed q d).take w)
  ∧ format_value (.pyint z) (iSpec w) = .ok ((intChars z).take w)
  ∧ format_value v (aSpec w) = .ok ((pyStr v).take w)
  ∧ (if isTruthyT v then (['T'] : List Char) else ['F']).length ≤ w := by
  refine ⟨?_, ?_, ?_, ?_⟩
  · rw [format_value_fSpec]
    show Except.ok (fField w d q) = _
    congr 1
    unfold fField padStart
    rw [Nat.sub_eq_zero_of_le (le_of_lt hF)]
    simp [spaces]
  · rw [format_value_iSpec]
    show Except.ok (iField w z) = _
    congr 1
    unfold iField padStart
    rw [Nat.sub_eq_zero_of_le (le_of_lt hI)]
    simp [spaces]
  · rw [format_value_aSpec, if_neg hv]
    congr 1
    unfold aField padEnd
    have hlen : ((pyStr v).take w).length = w := by
      simp only [List.length_take]
      omega
    rw [hlen, Nat.sub_self]
    simp [spaces]
  · split <;> simp <;> omega

theorem overflow_truncation_witness :
    format_value (.pyfloat 35) (fSpec 2 1) = .ok ((renderFixed 35 1).take 2)
  ∧ format_value (.pyint 123) (iSpec 2) = .ok ((intChars 123).take 2)
  ∧ format_value (.pystr ['a', 'b', 'c']) (aSpec 2) =
      .ok ((pyStr (.pystr ['a', 'b', 'c'])).take 2)
  ∧ (if isTruthyT (.pystr ['a', 'b', 'c']) then (['T'] : List Char)
      else ['F']).length ≤ 2 :=
  overflow_truncation 2 1 35 123 (.pystr ['a', 'b', 'c']) (by decide)
    (by decide) (by decide) (by decide) (by decide)

/-- C8: a format spec whose kind letter is not one of `F`, `I`, `A`, `L`
makes `format_value` raise the `Unknown format` error for every value,
while a spec starting with one of the four supported kind letters never
reaches that raise site. -/
theorem unknown_format_kind_error (v : PyVal) (c : Char) (rest : List Char) :
    (c ∉ (['F', 'I', 'A', 'L'] : List Char) →
      format_value v (c :: rest) = .error (.valueErrorUnknownFormat (c :: rest)))
  ∧ (c ∈ (['F', 'I', 'A', 'L'] : List Char) →
      ∀ fmt, format_value v (c :: rest) ≠ .error (.valueErrorUnknownFormat fmt)) := by
  constructor
  · intro hc
    simp only [List.mem_cons, List.not_mem_nil, or_false, not_or] at hc
    obtain ⟨h1, h2, h3, h4⟩ := hc
    simp only [format_value]
    rw [if_neg h1, if_neg h2, if_neg h3, if_neg h4]
  · intro hc fmt h
    fin_cases hc <;>
    · simp only [format_value, if_true, if_false,
        show (('I' : Char) = 'F') = False by decide,
        show (('A' : Char) = 'F') = False by decide,
        show (('A' : Char) = 'I') = False by decide,
        show (('L' : Char) = 'F') = False by decide,
        show (('L' : Char) = 'I') = False by decide,
        show (('L' : Char) = 'A') = False by decide] at h
      repeat' split at h
      all_goals simp_all

theorem unknown_format_kind_error_witness :
    format_value .pynone ('X' :: ['1', '0']) =
      .error (.valueErrorUnknownFormat ('X' :: ['1', '0']))
  ∧ format_value .pynone ('F' :: ['2', '0', '.', '5']) ≠
      .error (.valueErrorUnknownFormat ('F' :: ['2', '0', '.', '5'])) :=
  ⟨(unknown_format_kind_error .pynone 'X' ['1', '0']).1 (by decide),
   (unknown_format_kind_error .pynone 'F' ['2', '0', '.', '5']).2 (by decide) _⟩

example : fromtimestamp 1700000000 = ⟨2023, 11, 14, 22, 13, 20⟩ := by decide


example : fromtimestamp 10800 = ⟨1970, 1, 1, 3, 0, 0⟩ := by decide

lemma fv_F20_5_opt (x : Option ℚ) :
    format_value (pyOptQ x) fmtF20_5 = .ok (fvOptF 20 5 x) := by
  cases x <;> rfl

lemma fv_F13_5_opt (x : Option ℚ) :
    format_value (pyOptQ x) fmtF13_5 = .ok (fvOptF 13 5 x) := by
  cases x <;> rfl

lemma fv_F13_5_float (q : ℚ) :
    format_value (.pyfloat q) fmtF13_5 = .ok (fField 13 5 q) := rfl

lemma fv_F20_5_empty :
    format_value (.pystr []) fmtF20_5 = .ok (spaces 20) := rfl

lemma fv_A40_opt (x : Option (List Char)) :
    format_value (pyOptS x) fmtA40 = .ok (fvOptA 40 x) := by
  cases x <;> rfl

lemma fv_A40_str (s : List Char) :
    format_value (.pystr s) fmtA40 = .ok (aField 40 s) := rfl

lemma fv_A20_str (s : List Char) :
    format_value (.pystr s) fmtA20 = .ok (aField 20 s) := rfl

lemma fv_I10_int (n : ℤ) :
    format_value (.pyint n) fmtI10 = .ok (iField 10 n) := rfl

lemma fv_I7_int (n : ℤ) :
    format_value (.pyint n) fmtI7 = .ok (iField 7 n) := rfl

lemma fv_L10_str (s : List Char) :
    format_value (.pystr s) fmtL10 = .ok (lField 10 (.pystr s)) := rfl

lemma exJoin_nil : exJoin [] = .ok [] := rfl

lemma exJoin_cons (x : Except PyError (List Char))
    (xs : List (Except PyError (List Char))) :
    exJoin (x :: xs) =
      match x, exJoin xs with
      | .ok s, .ok rest => .ok (s ++ rest)
      | .error e, _ => .error e
      | .ok _, .error e => .error e := rfl

lemma exJoin_ok_cons (s : List Char) (xs : List (Except PyError (List Char))) :
    exJoin (.ok s :: xs) = (exJoin xs).map (fun r => s ++ r) := by
  rw [exJoin_cons]
  cases h : exJoin xs <;> simp [Except.map]

lemma header_ok (p : Point) : header p = .ok (headerChars p) := by
  unfold header
  simp only [fv_F20_5_opt, fv_F13_5_float, fv_F20_5_empty, fv_A40_opt,
    fv_A40_str, fv_A20_str, fv_I10_int, fv_I7_int, fv_L10_str]
  simp only [exJoin_ok_cons, exJoin_nil, Except.map, List.append_nil]
  rfl

lemma data_ok (p : Point) : data_record p = .ok (dataChars p) := by
  unfold data_record
  simp only [fv_F13_5_opt, fv_F13_5_float, fv_I7_int]
  simp only [exJoin_ok_cons, exJoin_nil, Except.map, List.append_nil]
  rfl

lemma fvOptF_length (w d : ℕ) (x : Option ℚ) : (fvOptF w d x).length = w := by
  cases x <;> simp [fvOptF, fField_length, length_spaces]

lemma fvOptA_length (w : ℕ) (x : Option (List Char)) :
    (fvOptA w x).length = w := by
  cases x <;> simp [fvOptA, aField_length, length_spaces]

/-- C10: for every observation accepted by `convert_to_little_r`, the
header line is exactly 620 characters long and the data line exactly 200,
independently of which optional fields are present or absent and of the
magnitudes of their values. -/
theorem record_line_lengths (p : Point) :
    (header p).map List.length = .ok 620
  ∧ (data_record p).map List.length = .ok 200 := by
  rw [header_ok, data_ok]
  refine ⟨?_, ?_⟩ <;>
    simp only [Except.map, headerChars, dataChars, List.length_append,
      fvOptF_length, fvOptA_length, fField_length, iField_length,
      aField_length, lField_length, length_spaces,
      (by norm_num : max (10 : ℕ) 1 = 10)]

lemma drop_append_ge (s t : List Char) (n : ℕ) (h : s.length ≤ n) :
    (s ++ t).drop n = t.drop (n - s.length) := by
  nth_rewrite 1 [show n = s.length + (n - s.length) by omega]
  exact List.drop_append (n - s.length)

lemma drop_through {k : ℕ} (s t : List Char) (n : ℕ) (h : s.length = k)
    (hk : k ≤ n) : (s ++ t).drop n = t.drop (n - k) := by
  subst h
  exact drop_append_ge s t n hk

lemma drop_pair20 (a b t : List Char) (n m : ℕ) (ha : a.length = 13)
    (hb : b.length = 7) (h : 20 ≤ n) (hm : n - 20 = m) :
    (a ++ (b ++ t)).drop n = t.drop m := by
  rw [drop_through a _ n ha (by omega), drop_through b _ _ hb (by omega)]
  congr 1

/-- C5: in the data line, the pressure field (columns 0-12) is the F13.5
rendering of `pressure * 100` (hPa to Pa) when present and of `-888888.0`
when absent; the temperature field (columns 40-52) is the F13.5 rendering
of `temperature + 273.15` (°C to K) when present and of `-888888.0` when
absent; altitude (columns 20-32), speed_u (120-132), speed_v (140-152) and
humidity (160-172) are rendered unmodified, with absent values rendered as
the blank missing convention. -/
theorem data_line_unit_conversions (p : Point) :
    (data_record p).map (fun l => l.take 13) =
      .ok (match p.pressure with
        | some hpa => fField 13 5 (hpa * 100)
        | none => fField 13 5 (-888888))
  ∧ (data_record p).map (fun l => (l.drop 40).take 13) =
      .ok (match p.temperature with
        | some c => fField 13 5 (c + 273.15)
        | none => fField 13 5 (-888888))
  ∧ (data_record p).map (fun l => (l.drop 20).take 13) =
      .ok (match p.altitude with
        | some alt => fField 13 5 alt
        | none => spaces 13)
  ∧ (data_record p).map (fun l => (l.drop 120).take 13) =
      .ok (match p.speed_u with
        | some u => fField 13 5 u
        | none => spaces 13)
  ∧ (data_record p).map (fun l => (l.drop 140).take 13) =
      .ok (match p.speed_v with
        | some v => fField 13 5 v
        | none => spaces 13)
  ∧ (data_record p).map (fun l => (l.drop 160).take 13) =
      .ok (match p.humidity with
        | some h => fField 13 5 h
        | none => spaces 13) := by
  refine ⟨?_, ?_, ?_, ?_, ?_, ?_⟩ <;>
    (rw [data_ok]; simp only [Except.map]; congr 1; unfold dataChars)
  · rw [List.take_left' (fField_length 13 5 _)]
    unfold pressurePa
    cases p.pressure <;> rfl
  · rw [drop_pair20 _ _ _ _ 20 (fField_length 13 5 _) (iField_length 7 0)
        (by norm_num) (by norm_num),
      drop_pair20 _ _ _ _ 0 (fvOptF_length 13 5 _) (iField_length 7 0)
        (by norm_num) (by norm_num),
      List.drop_zero, List.take_left' (fField_length 13 5 _)]
    unfold temperatureK
    cases p.temperature <;> rfl
  · rw [drop_pair20 _ _ _ _ 0 (fField_length 13 5 _) (iField_length 7 0)
        (by norm_num) (by norm_num),
      List.drop_zero, List.take_left' (fvOptF_length 13 5 _)]
    unfold fvOptF
    cases p.altitude <;> rfl
  · rw [drop_pair20 _ _ _ _ 100 (fField_length 13 5 _) (iField_length 7 0)
        (by norm_num) (by norm_num),
      drop_pair20 _ _ _ _ 80 (fvOptF_length 13 5 _) (iField_length 7 0)
        (by norm_num) (by norm_num),
      drop_pair20 _ _ _ _ 60 (fField_length 13 5 _) (iField_length 7 0)
        (by norm_num) (by norm_num),
      drop_pair20 _ _ _ _ 40 (fField_length 13 5 _) (iField_length 7 0)
        (by norm_num) (by norm_num),
      drop_pair20 _ _ _ _ 20 (fField_length 13 5 _) (iField_length 7 0)
        (by norm_num) (by norm_num),
      drop_pair20 _ _ _ _ 0 (fField_length 13 5 _) (iField_length 7 0)
        (by norm_num) (by norm_num),
      List.drop_zero, List.take_left' (fvOptF_length 13 5 _)]
    unfold fvOptF
    cases p.speed_u <;> rfl
  · rw [drop_pair20 _ _ _ _ 120 (fField_length 13 5 _) (iField_length 7 0)
        (by norm_num) (by norm_num),
      drop_pair20 _ _ _ _ 100 (fvOptF_length 13 5 _) (iField_length 7 0)
        (by norm_num) (by norm_num),
      drop_pair20 _ _ _ _ 80 (fField_length 13 5 _) (iField_length 7 0)
        (by norm_num) (by norm_num),
      drop_pair20 _ _ _ _ 60 (fField_length 13 5 _) (iField_length 7 0)
        (by norm_num) (by norm_num),
      drop_pair20 _ _ _ _ 40 (fField_length 13 5 _) (iField_length 7 0)
        (by norm_num) (by norm_num),
      drop_pair20 _ _ _ _ 20 (fField_length 13 5 _) (iField_length 7 0)
        (by norm_num) (by norm_num),
      drop_pair20 _ _ _ _ 0 (fvOptF_length 13 5 _) (iField_length 7 0)
        (by norm_num) (by norm_num),
      List.drop_zero, List.take_left' (fvOptF_length 13 5 _)]
    unfold fvOptF
    cases p.speed_v <;> rfl
  · rw [drop_pair20 _ _ _ _ 140 (fField_length 13 5 _) (iField_length 7 0)
        (by norm_num) (by norm_num),
      drop_pair20 _ _ _ _ 120 (fvOptF_length 13 5 _) (iField_length 7 0)
        (by norm_num) (by norm_num),
      drop_pair20 _ _ _ _ 100 (fField_length 13 5 _) (iField_length 7 0)
        (by norm_num) (by norm_num),
      drop_pair20 _ _ _ _ 80 (fField_length 13 5 _) (iField_length 7 0)
        (by norm_num) (by norm_num),
      drop_pair20 _ _ _ _ 60 (fField_length 13 5 _) (iField_length 7 0)
        (by norm_num) (by norm_num),
      drop_pair20 _ _ _ _ 40 (fField_length 13 5 _) (iField_length 7 0)
        (by norm_num) (by norm_num),
      drop_pair20 _ _ _ _ 20 (fvOptF_length 13 5 _) (iField_length 7 0)
        (by norm_num) (by norm_num),
      drop_pair20 _ _ _ _ 0 (fvOptF_length 13 5 _) (iField_length 7 0)
        (by norm_num) (by norm_num),
      List.drop_zero, List.take_left' (fvOptF_length 13 5 _)]
    unfold fvOptF
    cases p.humidity <;> rfl

lemma bucket_walk_flatten (bs adv : ℤ) (l : List Point) (c : ℤ)
    (cur : List Point) :
    ((bucket_walk bs adv l c cur).map Prod.snd).flatten = cur ++ l := by
  induction l generalizing c cur with
  | nil => simp [bucket_walk]
  | cons p rest ih =>
    simp only [bucket_walk]
    split
    · simp [ih]
    · simp [ih]

lemma pairwise_blocks (ll : List (List Point))
    (h : List.Sorted tsLE ll.flatten) : List.Pairwise segLE ll := by
  induction ll with
  | nil => exact List.Pairwise.nil
  | cons x xs ih =>
    rw [List.flatten_cons] at h
    rw [List.Sorted, List.pairwise_append] at h
    obtain ⟨h1, h2, h3⟩ := h
    refine List.Pairwise.cons ?_ (ih h2)
    intro t ht a ha b hb
    exact h3 a ha b (List.mem_flatten.2 ⟨t, ht, hb⟩)

/-- C3: for every non-empty observation collection and every positive
`bucket_hours`, the segments emitted by `output_data` (the unconditionally
emitted trailing segment included) concatenate to the sorted input, form a
permutation of the input — every observation in exactly one segment, no
drops, no duplicates — and are emitted in non-decreasing time order. -/
theorem bucket_partition (obs : List Point) (bucket_hours : ℤ)
    (hne : obs ≠ []) (hbh : 0 < bucket_hours) :
    ((output_segments obs bucket_hours).map Prod.snd).flatten = sortObs obs
  ∧ (((output_segments obs bucket_hours).map Prod.snd).flatten).Perm obs
  ∧ List.Pairwise segLE ((output_segments obs bucket_hours).map Prod.snd) := by
  have hsort : List.Sorted tsLE (sortObs obs) :=
    List.sorted_insertionSort tsLE obs
  have hperm : (sortObs obs).Perm obs := List.perm_insertionSort tsLE obs
  have hflat : ((output_segments obs bucket_hours).map Prod.snd).flatten =
      sortObs obs := by
    unfold output_segments
    rcases hs : sortObs obs with _ | ⟨p, rest⟩
    · rw [hs] at hperm
      exact absurd hperm.symm.eq_nil hne
    · simp [bucket_walk_flatten]
  exact ⟨hflat, hflat ▸ hperm, pairwise_blocks _ (hflat ▸ hsort)⟩

theorem bucket_partition_witness :
    ((output_segments [mkObs 3600, mkObs 0] 1).map Prod.snd).flatten =
      sortObs [mkObs 3600, mkObs 0]
  ∧ (((output_segments [mkObs 3600, mkObs 0] 1).map Prod.snd).flatten).Perm
      [mkObs 3600, mkObs 0]
  ∧ List.Pairwise segLE
      ((output_segments [mkObs 3600, mkObs 0] 1).map Prod.snd) :=
  bucket_partition [mkObs 3600, mkObs 0] 1 (by decide) (by decide)

/-- C2 (counterexample): the claim's segmentation — close at the first
observation with timestamp `≥ bucket_start + bucket_seconds`, advance by
exactly `bucket_seconds` — differs from the code's.  At timestamps
`[0, 3600]` with `bucket_hours = 1` the code keeps the observation at
exactly `bucket_start + bucket_seconds` in the current segment (its test
is strict `>`); at `[0, 100000]` with `bucket_hours = 24` the code
advances `curtime` by `timedelta(hours=24).seconds = 0`, not by 86400. -/
theorem bucketizer_claim_cex :
    output_segments_mid [mkObs 0, mkObs 3600] 1 ≠
      claim_segments [mkObs 0, mkObs 3600] 1
  ∧ output_segments_mid [mkObs 0, mkObs 100000] 24 ≠
      claim_segments [mkObs 0, mkObs 100000] 24 := by
  decide

lemma bucket_walk_mid (bs adv : ℤ) (l : List Point) (c : ℤ)
    (cur : List Point) :
    (bucket_walk bs adv l c cur).map (fun s => (s.1 + bs / 2, s.2)) =
      walk_amended bs adv l c cur := by
  induction l generalizing c cur with
  | nil => rfl
  | cons p rest ih =>
    simp only [bucket_walk, walk_amended]
    split
    · simp only [List.map_cons, ih]
    · exact ih _ _

/-- C2 (amended): during the walk over the sorted observations, the
current segment is closed upon encountering the first observation whose
timestamp is strictly greater than `bucket_start + bucket_seconds`; the
closed segment is labelled by the midpoint
`bucket_start + bucket_seconds / 2`, and `bucket_start` is then advanced
once by `timedelta(hours=bucket_hours).seconds`, i.e.
`bucket_seconds mod 86400` — equal to `bucket_seconds` only when
`bucket_hours * 3600 < 86400`. -/
theorem bucketizer_close_advance (obs : List Point) (bucket_hours : ℤ) :
    output_segments_mid obs bucket_hours = amended_segments obs bucket_hours := by
  unfold output_segments_mid output_segments amended_segments
  have h36 : bucket_hours * 60 * 60 = bucket_hours * 3600 := by ring
  rcases hs : sortObs obs with _ | ⟨p, rest⟩
  · rfl
  · rw [h36, bucket_walk_mid]

/-- C4: on the bucketed path, exactly one `convert_to_little_r` invocation
is made per emitted segment, but each such invocation receives the Python
list itself and raises `TypeError` at `point['timestamp']` instead of
producing a little_r block — here on an input yielding two segments, the
first holding two observations. -/
theorem segment_conversion_raises :
    (output_data [mkObs 0, mkObs 50, mkObs 100000] ['M'] 1).map Prod.snd =
      [.error .typeErrorListIndices, .error .typeErrorListIndices] := by
  decide

/-- C9 (counterexample): the bucketed filename carries a `WindBorne_`
prefix before the mission name, and the per-observation filename carries a
`data/` directory prefix, so neither is exactly the claimed shape. -/
theorem filename_claim_cex :
    bucket_filename ['M', '1'] 0 6 ≠ claimed_bucket_filename ['M', '1'] 0 6
  ∧ per_obs_filename ['M', '1'] ['o', 'b'] ≠
      claimed_obs_filename ['M', '1'] ['o', 'b'] := by
  decide

/-- C9 (amended): the bucketed filename is exactly
`WindBorne_<mission>_<YYYY>-<MM>-<DD>_<HH>:00_<bucket_hours>h.little_r`
with the date and hour the UTC rendering of the bucket midpoint, and the
per-observation filename is exactly `data/<mission>/<id>.little_r`. -/
theorem filename_shapes (mission pid : List Char) (curtime bucket_hours : ℤ) :
    bucket_filename mission curtime bucket_hours =
      "WindBorne_".data ++ claimed_bucket_filename mission curtime bucket_hours
  ∧ per_obs_filename mission pid =
      "data/".data ++ claimed_obs_filename mission pid := by
  constructor
  · simp only [bucket_filename, claimed_bucket_filename]
    rw [show curtime + bucket_hours * 1800 =
        curtime + bucket_hours * 3600 / 2 by
      rw [show bucket_hours * 3600 = 2 * (bucket_hours * 1800) by ring,
        Int.mul_ediv_cancel_left _ (by norm_num)]]
    simp [List.append_assoc]
  · simp [per_obs_filename, claimed_obs_filename, List.append_assoc]

example : format_value (.pyfloat 35) ("F7.2".data) = .ok ("  35.00".data) := by decide

example : format_value (.pyfloat (-888888)) ("F13.5".data) = .ok ("-888888.00000".data) := by decide

example : format_value .pynone ("F20.5".data) = .ok (spaces 20) := by decide

example : format_value (.pyint (-888888)) ("I10".data) = .ok ("   -888888".data) := by decide

example : format_value (.pystr ("FM-35 TEMP".data)) ("A40".data) =
    .ok ("FM-35 TEMP".data ++ spaces 30) := by decide

example : format_value (.pystr ['T']) ("L10".data) = .ok ("         T".data) := by decide

example : format_value .pynone ("L10".data) = .ok ("         F".data) := by decide

example : format_value (.pyint 5) ("X10".data) =
    .error (.valueErrorUnknownFormat ("X10".data)) := by decide

example : format_value (.pyfloat 1234567) ("F5.2".data) = .ok ("12345".data) := by decide

end WBLR
